import Mathlib

/-!
# The classifier server of `ml_classifiers` (`nodes/ros2_classifier_server.cpp`)

The server keeps one global `std::map<string, std::shared_ptr<Classifier>> classifier_list`
and answers seven services from it.  The embedding below passes that map explicitly through
every callback.  A callback yields the map it leaves behind, the list of calls it made on the
plugin loader and on classifier instances, and how it ended: by returning, or by calling a
method through a null `shared_ptr`.  That call is undefined behaviour: the server does not
survive it, so a run that ends this way leaves no map behind (`Run.after`); the map such a run
carries is the one at the moment of the call.

Logging (`RCLCPP_INFO`, `RCLCPP_WARN`, `RCLCPP_ERROR`) does not touch the map or the response
and is left out.
-/

set_option autoImplicit false

namespace MlClassifiers

/-! ## Data model -/

/-- A `std::shared_ptr<Classifier>`: `none` is the null pointer, `some s` points at a classifier
object whose current state is `s`.  The map is the only long-lived owner of each object (the
local `c` of a callback dies when the callback returns), so the object is stored in place. -/
abbrev Handle (σ : Type) := Option σ

/-- The global `classifier_list`: the entries of the `std::map`, in the order the map keeps them
(ascending keys). -/
abbrev ClassifierList (σ : Type) := List (String × Handle σ)

/-- Modelled from the spec: the `Classifier` capability (`ml_classifiers/classifier.hpp` is not
among the sources): `addTrainingPoint`, `train`, `clear`, `classifyPoint`, `save`, `load`, each
acting on the state `σ` of one instance.  The feature vector type `π` is never opened by the
server.  `load` reports whether it succeeded, which `loadCallback` tests; `save` reports whether
the write succeeded, which is what a persistence error is. -/
structure Classifier (σ π : Type) where
  addTrainingPoint : String → π → σ → σ
  train : σ → σ
  clear : σ → σ
  classifyPoint : π → σ → String × σ
  save : String → σ → Bool × σ
  load : String → σ → Bool × σ

/-- One element of `req->data`: the fields `target_class` and `point` the callbacks read. -/
structure ClassDataPoint (π : Type) where
  target_class : String
  point : π
  deriving DecidableEq, Repr

/-- The calls a callback makes on its collaborators, in the order it makes them. -/
inductive Call (π : Type) where
  | createUnmanagedInstance (class_type : String)
  | load (filename : String)
  | addTrainingPoint (id : String) (target_class : String) (point : π)
  | train (id : String)
  | clear (id : String)
  | save (id : String) (filename : String)
  | classifyPoint (id : String) (point : π)
  deriving DecidableEq, Repr

/-- The response of the six services that answer with `bool success`. -/
structure SuccessResponse where
  success : Bool
  deriving DecidableEq, Repr

/-- The response of `classify_data`: `string[] classifications`, and no success flag. -/
structure ClassifyResponse where
  classifications : List String
  deriving DecidableEq, Repr

/-- How a callback ends: it returns `ret` having filled in `res`, or it calls a method through a
null `shared_ptr` (undefined behaviour; no response is produced). -/
inductive Outcome (ρ : Type) where
  | returned (ret : Bool) (res : ρ)
  | nullDeref
  deriving DecidableEq, Repr

/-- One execution of a callback: the map afterwards (at the faulting call, when it faults), the
calls made, and the outcome. -/
structure Run (σ π ρ : Type) where
  classifier_list : ClassifierList σ
  calls : List (Call π)
  outcome : Outcome ρ
  deriving DecidableEq, Repr

/-- The map the server holds once the callback is over: the map of the run when the callback
returned, and none at all when it called through a null pointer, since the process is lost and
every entry with it. -/
def Run.after {σ π ρ : Type} (r : Run σ π ρ) : Option (ClassifierList σ) :=
  match r.outcome with
  | .returned _ _ => some r.classifier_list
  | .nullDeref => none

/-! ## The `std::map` operations the callbacks use -/

section Map

variable {σ : Type}

/-- `classifier_list.find(id)`: `none` is `end()`, `some h` an iterator at the entry holding `h`. -/
def find : ClassifierList σ → String → Option (Handle σ)
  | [], _ => none
  | (k, v) :: rest, id => if k = id then some v else find rest id

/-- `classifier_list.erase(id)`. -/
def erase : ClassifierList σ → String → ClassifierList σ
  | [], _ => []
  | (k, v) :: rest, id => if k = id then erase rest id else (k, v) :: erase rest id

/-- Insertion of a value-initialised (null) `shared_ptr` under `id`, at its place in key order
(`std::less<std::string>`: lexicographic on the characters). -/
def insertNull : ClassifierList σ → String → ClassifierList σ
  | [], id => [(id, none)]
  | (k, v) :: rest, id =>
      if id.data < k.data then (id, none) :: (k, v) :: rest else (k, v) :: insertNull rest id

/-- The map after evaluating `classifier_list[id]`: `operator[]` inserts a null pointer when
`id` is not a key and leaves the map alone when it is. -/
def subscript (m : ClassifierList σ) (id : String) : ClassifierList σ :=
  if (find m id).isSome then m else insertNull m id

/-- Writing `h` through the reference `classifier_list[id]` refers to. -/
def put : ClassifierList σ → String → Handle σ → ClassifierList σ
  | [], _, _ => []
  | (k, v) :: rest, id, h => if k = id then (k, h) :: rest else (k, v) :: put rest id h

/-- The pointer `classifier_list[id]` yields, read from the map after the subscript. -/
def pointee (m : ClassifierList σ) (id : String) : Handle σ :=
  (find (subscript m id) id).join

/-- `classifier_list[id] = c`. -/
def assign (m : ClassifierList σ) (id : String) (c : Handle σ) : ClassifierList σ :=
  put (subscript m id) id c

/-- The keys of the map, in order. -/
def keys (m : ClassifierList σ) : List String := m.map Prod.fst

end Map

/-! ## The callbacks -/

section Callbacks

variable {σ π : Type}

/-- `createHelper(class_type, c)`: `c_loader.createUnmanagedInstance` either yields an instance
(`some`) or throws `PluginlibException` (`none`).  The exception is caught and logged, `c` keeps
the value it had, and the function returns `true` on both paths. -/
def createHelper (c_loader : String → Option σ) (class_type : String) (c : Handle σ) :
    Bool × Handle σ :=
  match c_loader class_type with
  | some inst => (true, some inst)
  | none => (true, c)

/-- `createCallback` (`create_classifier`). -/
def createCallback (c_loader : String → Option σ) (classifier_list : ClassifierList σ)
    (identifier class_type : String) : Run σ π SuccessResponse :=
  let id := identifier
  let r := createHelper c_loader class_type none
  let c := r.2
  if !r.1 then
    ⟨classifier_list, [.createUnmanagedInstance class_type], .returned false ⟨false⟩⟩
  else
    let m := if (find classifier_list id).isSome then erase classifier_list id else classifier_list
    ⟨assign m id c, [.createUnmanagedInstance class_type], .returned true ⟨true⟩⟩

/-- The `for` loop of `addCallback`: each round evaluates `classifier_list[id]` and calls
`addTrainingPoint` through it.  The third component is `false` when a round went through a null
pointer. -/
def addLoop (ops : Classifier σ π) (id : String) :
    List (ClassDataPoint π) → ClassifierList σ → ClassifierList σ × List (Call π) × Bool
  | [], m => (m, [], true)
  | d :: ds, m =>
      match pointee m id with
      | none => (subscript m id, [], false)
      | some s =>
          let r := addLoop ops id ds
            (put (subscript m id) id (some (ops.addTrainingPoint d.target_class d.point s)))
          (r.1, Call.addTrainingPoint id d.target_class d.point :: r.2.1, r.2.2)

/-- `addCallback` (`add_class_data`). -/
def addCallback (ops : Classifier σ π) (classifier_list : ClassifierList σ)
    (identifier : String) (data : List (ClassDataPoint π)) : Run σ π SuccessResponse :=
  let id := identifier
  if (find classifier_list id).isNone then
    ⟨classifier_list, [], .returned false ⟨false⟩⟩
  else
    let r := addLoop ops id data classifier_list
    if r.2.2 then ⟨r.1, r.2.1, .returned true ⟨true⟩⟩ else ⟨r.1, r.2.1, .nullDeref⟩

/-- `trainCallback` (`train_classifier`). -/
def trainCallback (ops : Classifier σ π) (classifier_list : ClassifierList σ)
    (identifier : String) : Run σ π SuccessResponse :=
  let id := identifier
  if (find classifier_list id).isNone then
    ⟨classifier_list, [], .returned false ⟨false⟩⟩
  else
    match pointee classifier_list id with
    | none => ⟨subscript classifier_list id, [], .nullDeref⟩
    | some s =>
        ⟨put (subscript classifier_list id) id (some (ops.train s)), [.train id],
          .returned true ⟨true⟩⟩

/-- `clearCallback` (`clear_classifier`). -/
def clearCallback (ops : Classifier σ π) (classifier_list : ClassifierList σ)
    (identifier : String) : Run σ π SuccessResponse :=
  let id := identifier
  if (find classifier_list id).isNone then
    ⟨classifier_list, [], .returned false ⟨false⟩⟩
  else
    match pointee classifier_list id with
    | none => ⟨subscript classifier_list id, [], .nullDeref⟩
    | some s =>
        ⟨put (subscript classifier_list id) id (some (ops.clear s)), [.clear id],
          .returned true ⟨true⟩⟩

/-- `saveCallback` (`save_classifier`): what `save` reports is dropped. -/
def saveCallback (ops : Classifier σ π) (classifier_list : ClassifierList σ)
    (identifier filename : String) : Run σ π SuccessResponse :=
  let id := identifier
  if (find classifier_list id).isNone then
    ⟨classifier_list, [], .returned false ⟨false⟩⟩
  else
    match pointee classifier_list id with
    | none => ⟨subscript classifier_list id, [], .nullDeref⟩
    | some s =>
        ⟨put (subscript classifier_list id) id (some (ops.save filename s).2), [.save id filename],
          .returned true ⟨true⟩⟩

/-- `loadCallback` (`load_classifier`). -/
def loadCallback (ops : Classifier σ π) (c_loader : String → Option σ)
    (classifier_list : ClassifierList σ) (identifier class_type filename : String) :
    Run σ π SuccessResponse :=
  let id := identifier
  let r := createHelper c_loader class_type none
  if !r.1 then
    ⟨classifier_list, [.createUnmanagedInstance class_type], .returned false ⟨false⟩⟩
  else
    match r.2 with
    | none => ⟨classifier_list, [.createUnmanagedInstance class_type], .nullDeref⟩
    | some s =>
        let l := ops.load filename s
        if !l.1 then
          ⟨classifier_list, [.createUnmanagedInstance class_type, .load filename],
            .returned false ⟨false⟩⟩
        else
          let m :=
            if (find classifier_list id).isSome then erase classifier_list id else classifier_list
          ⟨assign m id (some l.2), [.createUnmanagedInstance class_type, .load filename],
            .returned true ⟨true⟩⟩

/-- The `for` loop of `classifyCallback`: each round evaluates `classifier_list[id]`, calls
`classifyPoint` through it and pushes the label onto `res->classifications`.  The last component
is `false` when a round went through a null pointer. -/
def classifyLoop (ops : Classifier σ π) (id : String) :
    List (ClassDataPoint π) → ClassifierList σ →
      ClassifierList σ × List (Call π) × List String × Bool
  | [], m => (m, [], [], true)
  | d :: ds, m =>
      match pointee m id with
      | none => (subscript m id, [], [], false)
      | some s =>
          let a := ops.classifyPoint d.point s
          let r := classifyLoop ops id ds (put (subscript m id) id (some a.2))
          (r.1, Call.classifyPoint id d.point :: r.2.1, a.1 :: r.2.2.1, r.2.2.2)

/-- `classifyCallback` (`classify_data`): no lookup of `id` comes before the loop. -/
def classifyCallback (ops : Classifier σ π) (classifier_list : ClassifierList σ)
    (identifier : String) (data : List (ClassDataPoint π)) : Run σ π ClassifyResponse :=
  let id := identifier
  let r := classifyLoop ops id data classifier_list
  if r.2.2.2 then ⟨r.1, r.2.1, .returned true ⟨r.2.2.1⟩⟩ else ⟨r.1, r.2.1, .nullDeref⟩

end Callbacks

/-! ## Reference functions for the loops and for registration -/

section Reference

variable {σ π : Type}

/-- What the spec calls mapping the vectors through `classifyPoint`, threading the instance state
from left to right: the labels, and the state the instance ends in. -/
def classifyAll (ops : Classifier σ π) : List π → σ → List String × σ
  | [], s => ([], s)
  | p :: ps, s =>
      ((ops.classifyPoint p s).1 :: (classifyAll ops ps (ops.classifyPoint p s).2).1,
        (classifyAll ops ps (ops.classifyPoint p s).2).2)

/-- The left fold of `addTrainingPoint` over the training points. -/
def addAll (ops : Classifier σ π) (ps : List (ClassDataPoint π)) (s : σ) : σ :=
  ps.foldl (fun acc d => ops.addTrainingPoint d.target_class d.point acc) s

/-- A request that registers an instance: `create_classifier` with a class type, or
`load_classifier` with a class type and a filename. -/
inductive Registration where
  | create (class_type : String)
  | load (class_type : String) (filename : String)
  deriving DecidableEq, Repr

/-- Running a registration request for `id`: the callback of its service. -/
def Registration.run (ops : Classifier σ π) (c_loader : String → Option σ)
    (m : ClassifierList σ) (id : String) : Registration → Run σ π SuccessResponse
  | .create class_type => createCallback c_loader m id class_type
  | .load class_type filename => loadCallback ops c_loader m id class_type filename

/-- The instance a registration request has to offer: the fresh instance of a class type that
resolves, after a `load` that succeeded when the request is a load; `none` when the class type
does not resolve or the load fails. -/
def Registration.offers (ops : Classifier σ π) (c_loader : String → Option σ) :
    Registration → Option σ
  | .create class_type => c_loader class_type
  | .load class_type filename =>
      match c_loader class_type with
      | none => none
      | some s => if (ops.load filename s).1 then some (ops.load filename s).2 else none

end Reference

/-! ## A stub classifier, to run the callbacks on concrete requests -/

/-- State of the stub: the training points received, and whether `train` ran since the last
`clear`. -/
structure StubState where
  points : List (String × List Int)
  trained : Bool
  deriving DecidableEq, Repr

/-- The stub classifier: it labels a point with the class of the first equal training point and
with `"0"` when there is none; `save` and `load` fail on the empty filename. -/
def stubClassifier : Classifier StubState (List Int) where
  addTrainingPoint := fun c p s => ⟨s.points ++ [(c, p)], s.trained⟩
  train := fun s => ⟨s.points, true⟩
  clear := fun _ => ⟨[], false⟩
  classifyPoint := fun p s =>
    (match s.points.find? (fun e => e.2 = p) with
      | some e => e.1
      | none => "0", s)
  save := fun filename s => (filename ≠ "", s)
  load := fun filename s => (filename ≠ "", s)

/-- The stub plugin loader: only the class type `"stub"` resolves. -/
def stubLoader : String → Option StubState
  | "stub" => some ⟨[], false⟩
  | _ => none

/-- A map with two entries, to run the callbacks on: `"A"` trained on the point `[0, 0]` of class
`"1"`, and `"B"` empty. -/
def stubList : ClassifierList StubState :=
  [("A", some ⟨[("1", [0, 0])], true⟩), ("B", some ⟨[], false⟩)]

/-- The map the server holds after answering `create_classifier("C", "nope")` on `stubList`. -/
def stubListAfterBadCreate : ClassifierList StubState :=
  (createCallback stubLoader stubList "C" "nope" :
    Run StubState (List Int) SuccessResponse).classifier_list

/-! ## Facts about the map operations -/

section MapFacts

variable {σ : Type}

theorem find_eq_none_of_not_mem (m : ClassifierList σ) (id : String) (h : id ∉ keys m) :
    find m id = none := by
  induction m with
  | nil => rfl
  | cons e rest ih =>
      obtain ⟨k, v⟩ := e
      simp only [keys, List.map_cons, List.mem_cons, not_or] at h
      have hk : ¬ k = id := fun hk => h.1 hk.symm
      simp only [find, hk, if_false]
      exact ih h.2

theorem find_isSome_iff_mem (m : ClassifierList σ) (id : String) :
    (find m id).isSome = true ↔ id ∈ keys m := by
  induction m with
  | nil => simp [find, keys]
  | cons e rest ih =>
      obtain ⟨k, v⟩ := e
      by_cases hk : k = id
      · simp [find, keys, hk]
      · have hk2 : ¬ id = k := fun h => hk h.symm
        simp only [find, hk, if_false, keys, List.map_cons, List.mem_cons, hk2, false_or]
        exact ih

theorem find_erase_ne (m : ClassifierList σ) (id other : String) (h : other ≠ id) :
    find (erase m id) other = find m other := by
  induction m with
  | nil => rfl
  | cons e rest ih =>
      obtain ⟨k, v⟩ := e
      by_cases hk : k = id
      · have hko : ¬ k = other := fun hko => h (hko.symm.trans hk)
        simp only [erase, hk, if_true, find]
        rw [ih]
        simp [hk ▸ hko]
      · by_cases hko : k = other
        · subst hko
          simp [erase, hk, find]
        · simp [erase, hk, find, hko, ih]

theorem find_erase_self (m : ClassifierList σ) (id : String) : find (erase m id) id = none := by
  induction m with
  | nil => rfl
  | cons e rest ih =>
      obtain ⟨k, v⟩ := e
      by_cases hk : k = id
      · simp [erase, hk, ih]
      · simp [erase, hk, find, ih]

theorem find_insertNull_ne (m : ClassifierList σ) (id other : String) (h : other ≠ id) :
    find (insertNull m id) other = find m other := by
  have hio : ¬ id = other := fun hio => h hio.symm
  induction m with
  | nil => simp [insertNull, find, hio]
  | cons e rest ih =>
      obtain ⟨k, v⟩ := e
      by_cases hlt : id.data < k.data
      · simp [insertNull, hlt, find, hio]
      · by_cases hko : k = other
        · subst hko
          simp [insertNull, hlt, find]
        · simp [insertNull, hlt, find, hko, ih]

theorem find_insertNull_self (m : ClassifierList σ) (id : String) (h : find m id = none) :
    find (insertNull m id) id = some none := by
  induction m with
  | nil => simp [insertNull, find]
  | cons e rest ih =>
      obtain ⟨k, v⟩ := e
      by_cases hk : k = id
      · simp [find, hk] at h
      · simp only [find, hk, if_false] at h
        by_cases hlt : id.data < k.data
        · simp [insertNull, hlt, find]
        · simp [insertNull, hlt, find, hk, ih h]

theorem find_subscript_ne (m : ClassifierList σ) (id other : String) (h : other ≠ id) :
    find (subscript m id) other = find m other := by
  unfold subscript
  split
  · rfl
  · exact find_insertNull_ne m id other h

theorem subscript_of_find (m : ClassifierList σ) (id : String) (c : Handle σ)
    (h : find m id = some c) : subscript m id = m := by
  simp [subscript, h]

theorem subscript_of_absent (m : ClassifierList σ) (id : String) (h : find m id = none) :
    subscript m id = insertNull m id := by
  simp [subscript, h]

theorem find_subscript_isSome (m : ClassifierList σ) (id : String) :
    (find (subscript m id) id).isSome = true := by
  unfold subscript
  split
  · assumption
  · rename_i hn
    have hnone : find m id = none := by
      cases hf : find m id with
      | none => rfl
      | some c => simp [hf] at hn
    simp [find_insertNull_self m id hnone]

theorem find_put_ne (m : ClassifierList σ) (id other : String) (c : Handle σ) (h : other ≠ id) :
    find (put m id c) other = find m other := by
  induction m with
  | nil => rfl
  | cons e rest ih =>
      obtain ⟨k, v⟩ := e
      by_cases hk : k = id
      · have hko : ¬ k = other := fun hko => h (hko.symm.trans hk)
        simp only [put, hk, if_true, find]
        simp [hk ▸ hko]
      · by_cases hko : k = other
        · subst hko
          simp [put, hk, find]
        · simp [put, hk, find, hko, ih]

theorem find_put_self (m : ClassifierList σ) (id : String) (c : Handle σ)
    (h : (find m id).isSome = true) : find (put m id c) id = some c := by
  induction m with
  | nil => simp [find] at h
  | cons e rest ih =>
      obtain ⟨k, v⟩ := e
      by_cases hk : k = id
      · simp [put, hk, find]
      · simp only [find, hk, if_false] at h
        simp [put, hk, find, ih h]

theorem put_of_find (m : ClassifierList σ) (id : String) (c : Handle σ)
    (h : find m id = some c) : put m id c = m := by
  induction m with
  | nil => rfl
  | cons e rest ih =>
      obtain ⟨k, v⟩ := e
      by_cases hk : k = id
      · simp only [find, hk, if_true, Option.some.injEq] at h
        simp [put, hk, h]
      · simp only [find, hk, if_false] at h
        simp [put, hk, ih h]

theorem put_put (m : ClassifierList σ) (id : String) (c d : Handle σ) :
    put (put m id c) id d = put m id d := by
  induction m with
  | nil => rfl
  | cons e rest ih =>
      obtain ⟨k, v⟩ := e
      by_cases hk : k = id
      · simp [put, hk]
      · simp [put, hk, ih]

theorem keys_put (m : ClassifierList σ) (id : String) (c : Handle σ) :
    keys (put m id c) = keys m := by
  induction m with
  | nil => rfl
  | cons e rest ih =>
      obtain ⟨k, v⟩ := e
      by_cases hk : k = id
      · simp [put, hk, keys]
      · simp only [put, hk, if_false, keys, List.map_cons, List.cons.injEq, true_and]
        exact ih

theorem find_assign_ne (m : ClassifierList σ) (id other : String) (c : Handle σ)
    (h : other ≠ id) : find (assign m id c) other = find m other := by
  unfold assign
  rw [find_put_ne _ _ _ _ h, find_subscript_ne _ _ _ h]

theorem find_assign_self (m : ClassifierList σ) (id : String) (c : Handle σ) :
    find (assign m id c) id = some c :=
  find_put_self _ _ _ (find_subscript_isSome m id)

theorem erase_of_absent (m : ClassifierList σ) (id : String) (h : find m id = none) :
    erase m id = m := by
  induction m with
  | nil => rfl
  | cons e rest ih =>
      obtain ⟨k, v⟩ := e
      by_cases hk : k = id
      · simp [find, hk] at h
      · simp only [find, hk, if_false] at h
        simp [erase, hk, ih h]

theorem guarded_erase_eq (m : ClassifierList σ) (id : String) :
    (if (find m id).isSome then erase m id else m) = erase m id := by
  cases hf : find m id with
  | none => simp [erase_of_absent m id hf]
  | some c => simp

theorem erase_put (m : ClassifierList σ) (id : String) (c : Handle σ) :
    erase (put m id c) id = erase m id := by
  induction m with
  | nil => rfl
  | cons e rest ih =>
      obtain ⟨k, v⟩ := e
      by_cases hk : k = id
      · simp [put, hk, erase]
      · simp [put, hk, erase, ih]

theorem erase_insertNull (m : ClassifierList σ) (id : String) :
    erase (insertNull m id) id = erase m id := by
  induction m with
  | nil => simp [insertNull, erase]
  | cons e rest ih =>
      obtain ⟨k, v⟩ := e
      by_cases hlt : id.data < k.data
      · simp [insertNull, hlt, erase]
      · by_cases hk : k = id
        · simp [insertNull, hlt, erase, hk, ih]
        · simp [insertNull, hlt, erase, hk, ih]

theorem erase_erase (m : ClassifierList σ) (id : String) :
    erase (erase m id) id = erase m id :=
  erase_of_absent _ _ (find_erase_self m id)

theorem length_keys_insertNull (m : ClassifierList σ) (id : String) :
    (keys (insertNull m id)).length = (keys m).length + 1 := by
  induction m with
  | nil => rfl
  | cons e rest ih =>
      obtain ⟨k, v⟩ := e
      by_cases hlt : id.data < k.data
      · simp [insertNull, hlt, keys]
      · simp only [keys, List.length_map] at ih
        simp [insertNull, hlt, keys, ih]

theorem count_keys_insertNull (m : ClassifierList σ) (id : String) :
    (keys (insertNull m id)).count id = (keys m).count id + 1 := by
  induction m with
  | nil => simp [insertNull, keys]
  | cons e rest ih =>
      obtain ⟨k, v⟩ := e
      by_cases hlt : id.data < k.data
      · simp [insertNull, hlt, keys]
      · simp only [keys] at ih
        simp only [insertNull, hlt, if_false, keys, List.map_cons, List.count_cons, ih]
        omega

theorem count_keys_erase (m : ClassifierList σ) (id : String) :
    (keys (erase m id)).count id = 0 := by
  induction m with
  | nil => rfl
  | cons e rest ih =>
      obtain ⟨k, v⟩ := e
      by_cases hk : k = id
      · simp only [erase, hk, if_true]
        exact ih
      · simp only [keys] at ih
        simp [erase, hk, keys, List.count_cons, ih]

theorem length_keys_erase_le (m : ClassifierList σ) (id : String) :
    (keys (erase m id)).length ≤ (keys m).length := by
  induction m with
  | nil => simp [erase]
  | cons e rest ih =>
      obtain ⟨k, v⟩ := e
      simp only [keys, List.length_map] at ih
      by_cases hk : k = id
      · simp only [erase, hk, if_true, keys, List.length_map, List.length_cons]
        omega
      · simp only [erase, hk, if_false, keys, List.length_map, List.length_cons]
        omega

/-- The map after the overwrite sequence of `createCallback` and `loadCallback`: the guarded
`erase(id)` followed by `classifier_list[id] = c`. -/
theorem overwrite_eq (m : ClassifierList σ) (id : String) (c : Handle σ) :
    assign (if (find m id).isSome then erase m id else m) id c =
      put (insertNull (erase m id) id) id c := by
  rw [guarded_erase_eq]
  unfold assign
  rw [subscript_of_absent _ _ (find_erase_self m id)]

theorem find_overwrite_self (m : ClassifierList σ) (id : String) (c : Handle σ) :
    find (put (insertNull (erase m id) id) id c) id = some c := by
  apply find_put_self
  simp [find_insertNull_self _ _ (find_erase_self m id)]

theorem overwrite_overwrite (m : ClassifierList σ) (id : String) (c d : Handle σ) :
    put (insertNull (erase (put (insertNull (erase m id) id) id c) id) id) id d =
      put (insertNull (erase m id) id) id d := by
  rw [erase_put, erase_insertNull, erase_erase]

end MapFacts

/-! ## Facts about the two loops -/

section LoopFacts

variable {σ π : Type}

theorem pointee_of_find (m : ClassifierList σ) (id : String) (c : Handle σ)
    (h : find m id = some c) : pointee m id = c := by
  simp [pointee, subscript_of_find m id c h, h]

theorem classifyAll_length (ops : Classifier σ π) (ps : List π) (s : σ) :
    (classifyAll ops ps s).1.length = ps.length := by
  induction ps generalizing s with
  | nil => rfl
  | cons p ps ih => simp [classifyAll, ih]

theorem addLoop_of_instance (ops : Classifier σ π) (id : String) (data : List (ClassDataPoint π))
    (m : ClassifierList σ) (s : σ) (h : find m id = some (some s)) :
    addLoop ops id data m =
      (put m id (some (addAll ops data s)),
        data.map (fun d => Call.addTrainingPoint id d.target_class d.point), true) := by
  induction data generalizing m s with
  | nil => simp [addLoop, addAll, put_of_find m id _ h]
  | cons d ds ih =>
      have hs : (find m id).isSome = true := by simp [h]
      simp only [addLoop, pointee_of_find m id _ h, subscript_of_find m id _ h]
      rw [ih _ _ (find_put_self m id _ hs), put_put]
      simp [addAll]

theorem classifyLoop_of_instance (ops : Classifier σ π) (id : String)
    (data : List (ClassDataPoint π)) (m : ClassifierList σ) (s : σ)
    (h : find m id = some (some s)) :
    classifyLoop ops id data m =
      (put m id (some (classifyAll ops (data.map (fun d => d.point)) s).2),
        data.map (fun d => Call.classifyPoint id d.point),
        (classifyAll ops (data.map (fun d => d.point)) s).1, true) := by
  induction data generalizing m s with
  | nil => simp [classifyLoop, classifyAll, put_of_find m id _ h]
  | cons d ds ih =>
      have hs : (find m id).isSome = true := by simp [h]
      simp only [classifyLoop, pointee_of_find m id _ h, subscript_of_find m id _ h]
      rw [ih _ _ (find_put_self m id _ hs), put_put]
      simp [classifyAll]

theorem find_addLoop_ne (ops : Classifier σ π) (id other : String)
    (data : List (ClassDataPoint π)) (m : ClassifierList σ) (h : other ≠ id) :
    find (addLoop ops id data m).1 other = find m other := by
  induction data generalizing m with
  | nil => rfl
  | cons d ds ih =>
      simp only [addLoop]
      split
      · exact find_subscript_ne m id other h
      · simp only []
        rw [ih, find_put_ne _ _ _ _ h, find_subscript_ne _ _ _ h]

theorem find_classifyLoop_ne (ops : Classifier σ π) (id other : String)
    (data : List (ClassDataPoint π)) (m : ClassifierList σ) (h : other ≠ id) :
    find (classifyLoop ops id data m).1 other = find m other := by
  induction data generalizing m with
  | nil => rfl
  | cons d ds ih =>
      simp only [classifyLoop]
      split
      · exact find_subscript_ne m id other h
      · simp only []
        rw [ih, find_put_ne _ _ _ _ h, find_subscript_ne _ _ _ h]

theorem classifyAll_getElem_opt (ops : Classifier σ π) (ps : List π) (s : σ) (i : Nat)
    (hi : i < ps.length) :
    (classifyAll ops ps s).1[i]? =
      some (ops.classifyPoint ps[i] (classifyAll ops (ps.take i) s).2).1 := by
  induction ps generalizing s i with
  | nil => simp at hi
  | cons p ps ih =>
      cases i with
      | zero => simp [classifyAll]
      | succ j =>
          have hj : j < ps.length := by simpa using hi
          simp [classifyAll, ih _ j hj]

end LoopFacts

/-! ## The callbacks on an identifier that is, or is not, a key -/

section CallbackFacts

variable {σ π : Type}

theorem createHelper_fst (c_loader : String → Option σ) (class_type : String) (c : Handle σ) :
    (createHelper c_loader class_type c).1 = true := by
  unfold createHelper
  split <;> rfl

theorem find_guarded_erase_ne (m : ClassifierList σ) (id other : String) (h : other ≠ id) :
    find (if (find m id).isSome then erase m id else m) other = find m other := by
  split
  · exact find_erase_ne m id other h
  · rfl

theorem Registration.run_of_offers (ops : Classifier σ π) (c_loader : String → Option σ)
    (m : ClassifierList σ) (id : String) (q : Registration) (t : σ)
    (h : q.offers ops c_loader = some t) :
    (q.run ops c_loader m id).outcome = .returned true ⟨true⟩ ∧
    (q.run ops c_loader m id).classifier_list = put (insertNull (erase m id) id) id (some t) := by
  cases q with
  | create class_type =>
      simp only [Registration.offers] at h
      simp [Registration.run, createCallback, createHelper, h, overwrite_eq]
  | load class_type filename =>
      simp only [Registration.offers] at h
      cases hl : c_loader class_type with
      | none => simp [hl] at h
      | some s0 =>
          simp only [hl] at h
          by_cases hok : (ops.load filename s0).1 = true
          · simp only [hok, if_true, Option.some.injEq] at h
            simp [Registration.run, loadCallback, createHelper, hl, hok, overwrite_eq, h]
          · simp [hok] at h

theorem Run.after_eq_some {ρ : Type} (r : Run σ π ρ) (after : ClassifierList σ)
    (h : r.after = some after) : after = r.classifier_list := by
  unfold Run.after at h
  split at h
  · exact (Option.some.inj h).symm
  · exact absurd h (by simp)

/-- The callbacks that go through `classifier_list[id]` on a key holding a null pointer: the
call is made through the null pointer. -/
theorem null_entry_faults (ops : Classifier σ π) (m : ClassifierList σ) (id filename : String)
    (d : ClassDataPoint π) (ds : List (ClassDataPoint π)) (h : find m id = some none) :
    (addCallback ops m id (d :: ds)).outcome = .nullDeref ∧
    (trainCallback ops m id).outcome = .nullDeref ∧
    (clearCallback ops m id).outcome = .nullDeref ∧
    (saveCallback ops m id filename).outcome = .nullDeref ∧
    (classifyCallback ops m id (d :: ds)).outcome = .nullDeref := by
  simp [addCallback, addLoop, trainCallback, clearCallback, saveCallback, classifyCallback,
    classifyLoop, pointee_of_find m id none h, h]

/-- `classifyCallback` on an identifier that is not a key, with at least one point: the
subscript inserts the identifier with a null pointer, through which the call is made. -/
theorem classify_absent_faults (ops : Classifier σ π) (m : ClassifierList σ) (id : String)
    (d : ClassDataPoint π) (ds : List (ClassDataPoint π)) (h : id ∉ keys m) :
    classifyCallback ops m id (d :: ds) = ⟨insertNull m id, [], .nullDeref⟩ := by
  have hf : find m id = none := find_eq_none_of_not_mem m id h
  have hp : pointee m id = none := by
    simp [pointee, subscript_of_absent m id hf, find_insertNull_self m id hf]
  simp [classifyCallback, classifyLoop, hp, subscript_of_absent m id hf]

/-- `createCallback` on a class type the loader throws on: a null pointer is stored under the
identifier, replacing what was there, and the callback returns `true` with `success = true`. -/
theorem create_unresolved_stores_null (c_loader : String → Option σ) (m : ClassifierList σ)
    (id class_type : String) (h : c_loader class_type = none) :
    (createCallback c_loader m id class_type : Run σ π SuccessResponse) =
      ⟨put (insertNull (erase m id) id) id none, [.createUnmanagedInstance class_type],
        .returned true ⟨true⟩⟩ := by
  simp [createCallback, createHelper, h, overwrite_eq]

/-- `saveCallback` on a key holding an instance: the answer does not depend on what `save`
reports. -/
theorem save_ignores_report (ops : Classifier σ π) (m : ClassifierList σ)
    (id filename : String) (s : σ) (h : find m id = some (some s)) :
    saveCallback ops m id filename =
      ⟨put m id (some (ops.save filename s).2), [.save id filename], .returned true ⟨true⟩⟩ := by
  simp [saveCallback, h, pointee_of_find m id _ h, subscript_of_find m id _ h]

end CallbackFacts

/-! ## The claims -/

section Claims

variable {σ π : Type}

/-- C1: when `id` is not a key of `classifier_list`, each of `addCallback`, `trainCallback`,
`clearCallback` and `saveCallback` returns `false` with `success = false`, makes no call on any
classifier instance, and leaves the map exactly as it was. -/
theorem unknown_identifier_rejected (ops : Classifier σ π) (m : ClassifierList σ)
    (id filename : String) (data : List (ClassDataPoint π)) (h : id ∉ keys m) :
    addCallback ops m id data = ⟨m, [], .returned false ⟨false⟩⟩ ∧
    trainCallback ops m id = ⟨m, [], .returned false ⟨false⟩⟩ ∧
    clearCallback ops m id = ⟨m, [], .returned false ⟨false⟩⟩ ∧
    saveCallback ops m id filename = ⟨m, [], .returned false ⟨false⟩⟩ := by
  have hf : find m id = none := find_eq_none_of_not_mem m id h
  simp [addCallback, trainCallback, clearCallback, saveCallback, hf]

/-- Witness for C1: the four callbacks on the identifier `"missing"`, with one classifier
registered under `"A"`. -/
theorem unknown_identifier_rejected_witness :
    addCallback stubClassifier [("A", some ⟨[], false⟩)] "missing" [⟨"1", [0, 0]⟩] =
      ⟨[("A", some ⟨[], false⟩)], [], .returned false ⟨false⟩⟩ ∧
    trainCallback stubClassifier [("A", some ⟨[], false⟩)] "missing" =
      ⟨[("A", some ⟨[], false⟩)], [], .returned false ⟨false⟩⟩ ∧
    clearCallback stubClassifier [("A", some ⟨[], false⟩)] "missing" =
      ⟨[("A", some ⟨[], false⟩)], [], .returned false ⟨false⟩⟩ ∧
    saveCallback stubClassifier [("A", some ⟨[], false⟩)] "missing" "model.txt" =
      ⟨[("A", some ⟨[], false⟩)], [], .returned false ⟨false⟩⟩ :=
  unknown_identifier_rejected stubClassifier [("A", some ⟨[], false⟩)] "missing" "model.txt"
    [⟨"1", [0, 0]⟩] (by decide)

/-- On a key holding a classifier instance in state `s`, `classifyCallback` returns the labels obtained by running `classifyPoint` over the points in input order, each call on the
state the previous one left: as many labels as points, the `i`-th being the answer of
`classifyPoint` to the `i`-th point; it makes exactly those calls, keeps the key set, and leaves
the instance under `id` in the state the last call left. -/
theorem classify_maps_points_in_order (ops : Classifier σ π) (m : ClassifierList σ)
    (id : String) (data : List (ClassDataPoint π)) (s : σ) (h : find m id = some (some s)) :
    classifyCallback ops m id data =
      ⟨put m id (some (classifyAll ops (data.map (fun d => d.point)) s).2),
        data.map (fun d => Call.classifyPoint id d.point),
        .returned true ⟨(classifyAll ops (data.map (fun d => d.point)) s).1⟩⟩ ∧
    (classifyAll ops (data.map (fun d => d.point)) s).1.length = data.length ∧
    (∀ (i : Nat) (hi : i < data.length),
      (classifyAll ops (data.map (fun d => d.point)) s).1[i]? =
        some (ops.classifyPoint data[i].point
          (classifyAll ops ((data.take i).map (fun d => d.point)) s).2).1) ∧
    keys (classifyCallback ops m id data).classifier_list = keys m := by
  have hrun : classifyCallback ops m id data =
      ⟨put m id (some (classifyAll ops (data.map (fun d => d.point)) s).2),
        data.map (fun d => Call.classifyPoint id d.point),
        .returned true ⟨(classifyAll ops (data.map (fun d => d.point)) s).1⟩⟩ := by
    simp [classifyCallback, classifyLoop_of_instance ops id data m s h]
  refine ⟨hrun, ?_, ?_, ?_⟩
  · simp [classifyAll_length]
  · intro i hi
    have hi2 : i < (data.map (fun d => d.point)).length := by simpa using hi
    rw [classifyAll_getElem_opt ops _ s i hi2]
    simp [List.map_take]
  · rw [hrun]
    exact keys_put m id _

/-- On a key holding a classifier instance in state `s`, `addCallback` returns `true` with `success = true`, calls `addTrainingPoint(target_class, point)` once per element of the data
in input order, leaves the instance under `id` in the state the left fold of `addTrainingPoint`
over the data gives, stored in the same entry, and keeps the key set. -/
theorem add_folds_training_points (ops : Classifier σ π) (m : ClassifierList σ)
    (id : String) (data : List (ClassDataPoint π)) (s : σ) (h : find m id = some (some s)) :
    addCallback ops m id data =
      ⟨put m id (some (data.foldl
          (fun acc d => ops.addTrainingPoint d.target_class d.point acc) s)),
        data.map (fun d => Call.addTrainingPoint id d.target_class d.point),
        .returned true ⟨true⟩⟩ ∧
    find (addCallback ops m id data).classifier_list id =
      some (some (data.foldl (fun acc d => ops.addTrainingPoint d.target_class d.point acc) s)) ∧
    keys (addCallback ops m id data).classifier_list = keys m := by
  have hrun : addCallback ops m id data =
      ⟨put m id (some (addAll ops data s)),
        data.map (fun d => Call.addTrainingPoint id d.target_class d.point),
        .returned true ⟨true⟩⟩ := by
    simp [addCallback, h, addLoop_of_instance ops id data m s h]
  have hs : (find m id).isSome = true := by simp [h]
  refine ⟨hrun, ?_, ?_⟩
  · rw [hrun]
    exact find_put_self m id _ hs
  · rw [hrun]
    exact keys_put m id _

/-- C9: `classifyCallback` on an empty list of points returns an empty list of labels, makes no
call on any instance, and leaves the whole map, the entry under `id` included, as it was. -/
theorem classify_nothing (ops : Classifier σ π) (m : ClassifierList σ) (id : String) :
    classifyCallback ops m id [] = ⟨m, [], .returned true ⟨[]⟩⟩ := rfl

/-- The map operations of each of the seven callbacks, run for `id`, only touch the entry keyed
`id`: for `other ≠ id`, looking `other` up in the map of the run (the map at the faulting call,
when the run faults) gives what it gave before. -/
theorem other_identifiers_untouched (ops : Classifier σ π) (c_loader : String → Option σ)
    (m : ClassifierList σ) (id other class_type filename : String)
    (data : List (ClassDataPoint π)) (h : other ≠ id) :
    find (createCallback c_loader m id class_type : Run σ π SuccessResponse).classifier_list other
      = find m other ∧
    find (addCallback ops m id data).classifier_list other = find m other ∧
    find (trainCallback ops m id).classifier_list other = find m other ∧
    find (clearCallback ops m id).classifier_list other = find m other ∧
    find (saveCallback ops m id filename).classifier_list other = find m other ∧
    find (loadCallback ops c_loader m id class_type filename).classifier_list other
      = find m other ∧
    find (classifyCallback ops m id data).classifier_list other = find m other := by
  refine ⟨?_, ?_, ?_, ?_, ?_, ?_, ?_⟩
  · simp only [createCallback, createHelper_fst, Bool.not_true, Bool.false_eq_true, if_false]
    rw [find_assign_ne _ _ _ _ h, find_guarded_erase_ne _ _ _ h]
  · unfold addCallback
    simp only []
    split
    · rfl
    · split
      · exact find_addLoop_ne ops id other data m h
      · exact find_addLoop_ne ops id other data m h
  · unfold trainCallback
    simp only []
    split
    · rfl
    · split
      · exact find_subscript_ne m id other h
      · simp only []
        rw [find_put_ne _ _ _ _ h, find_subscript_ne _ _ _ h]
  · unfold clearCallback
    simp only []
    split
    · rfl
    · split
      · exact find_subscript_ne m id other h
      · simp only []
        rw [find_put_ne _ _ _ _ h, find_subscript_ne _ _ _ h]
  · unfold saveCallback
    simp only []
    split
    · rfl
    · split
      · exact find_subscript_ne m id other h
      · simp only []
        rw [find_put_ne _ _ _ _ h, find_subscript_ne _ _ _ h]
  · simp only [loadCallback, createHelper_fst, Bool.not_true, Bool.false_eq_true, if_false]
    split
    · rfl
    · split
      · rfl
      · simp only []
        rw [find_assign_ne _ _ _ _ h, find_guarded_erase_ne _ _ _ h]
  · unfold classifyCallback
    simp only []
    split
    · exact find_classifyLoop_ne ops id other data m h
    · exact find_classifyLoop_ne ops id other data m h

/-- The seven callbacks run for `"A"` on a map that also holds `"B"`. -/
theorem other_identifiers_untouched_witness :
    find (createCallback stubLoader stubList "A" "stub" :
      Run StubState (List Int) SuccessResponse).classifier_list "B" = find stubList "B" ∧
    find (addCallback stubClassifier stubList "A" [⟨"1", [0, 0]⟩]).classifier_list "B"
      = find stubList "B" ∧
    find (trainCallback stubClassifier stubList "A").classifier_list "B" = find stubList "B" ∧
    find (clearCallback stubClassifier stubList "A").classifier_list "B" = find stubList "B" ∧
    find (saveCallback stubClassifier stubList "A" "model.txt").classifier_list "B"
      = find stubList "B" ∧
    find (loadCallback stubClassifier stubLoader stubList "A" "stub" "model.txt").classifier_list
      "B" = find stubList "B" ∧
    find (classifyCallback stubClassifier stubList "A" [⟨"1", [0, 0]⟩]).classifier_list "B"
      = find stubList "B" :=
  other_identifiers_untouched stubClassifier stubLoader stubList "A" "B" "stub" "model.txt"
    [⟨"1", [0, 0]⟩] (by decide)

/-- Two points classified by the instance under `"A"`, which holds the training
point `[0, 0]` of class `"1"`. -/
theorem classify_maps_points_in_order_witness :
    find stubList "A" = some (some ⟨[("1", [0, 0])], true⟩) ∧
    classifyCallback stubClassifier stubList "A" [⟨"", [0, 0]⟩, ⟨"", [5, 5]⟩] =
      ⟨stubList, [.classifyPoint "A" [0, 0], .classifyPoint "A" [5, 5]],
        .returned true ⟨["1", "0"]⟩⟩ :=
  ⟨rfl, (classify_maps_points_in_order stubClassifier stubList "A"
    [⟨"", [0, 0]⟩, ⟨"", [5, 5]⟩] ⟨[("1", [0, 0])], true⟩ rfl).1⟩

/-- Two training points added to the instance under `"A"`. -/
theorem add_folds_training_points_witness :
    find stubList "A" = some (some ⟨[("1", [0, 0])], true⟩) ∧
    addCallback stubClassifier stubList "A" [⟨"2", [3, 4]⟩, ⟨"1", [1, 0]⟩] =
      ⟨[("A", some ⟨[("1", [0, 0]), ("2", [3, 4]), ("1", [1, 0])], true⟩),
          ("B", some ⟨[], false⟩)],
        [.addTrainingPoint "A" "2" [3, 4], .addTrainingPoint "A" "1" [1, 0]],
        .returned true ⟨true⟩⟩ :=
  ⟨rfl, (add_folds_training_points stubClassifier stubList "A"
    [⟨"2", [3, 4]⟩, ⟨"1", [1, 0]⟩] ⟨[("1", [0, 0])], true⟩ rfl).1⟩

/-- C4: two registrations under the same `id`, each by `createCallback` or by a `loadCallback`
whose load succeeds, the first offering the instance `t1` and the second `t2`: both return `true`
with `success = true`; afterwards `id` is a key exactly once and holds `t2`; the map has at most
one key more than before the first call; and it is the map the second registration alone would
have left, so nothing of `t1` remains in it. -/
theorem second_registration_replaces_first (ops : Classifier σ π)
    (c_loader : String → Option σ) (m : ClassifierList σ) (id : String)
    (q1 q2 : Registration) (t1 t2 : σ)
    (h1 : q1.offers ops c_loader = some t1) (h2 : q2.offers ops c_loader = some t2) :
    (q1.run ops c_loader m id).outcome = .returned true ⟨true⟩ ∧
    (q2.run ops c_loader (q1.run ops c_loader m id).classifier_list id).outcome
      = .returned true ⟨true⟩ ∧
    find (q2.run ops c_loader (q1.run ops c_loader m id).classifier_list id).classifier_list id
      = some (some t2) ∧
    (keys (q2.run ops c_loader (q1.run ops c_loader m id).classifier_list id).classifier_list).count
      id = 1 ∧
    (keys
      (q2.run ops c_loader (q1.run ops c_loader m id).classifier_list id).classifier_list).length
      ≤ (keys m).length + 1 ∧
    (q2.run ops c_loader (q1.run ops c_loader m id).classifier_list id).classifier_list
      = (q2.run ops c_loader m id).classifier_list := by
  obtain ⟨ho1, hm1⟩ := Registration.run_of_offers ops c_loader m id q1 t1 h1
  obtain ⟨ho2, hm2⟩ :=
    Registration.run_of_offers ops c_loader (q1.run ops c_loader m id).classifier_list id q2 t2 h2
  obtain ⟨_, hm2alone⟩ := Registration.run_of_offers ops c_loader m id q2 t2 h2
  have hfinal :
      (q2.run ops c_loader (q1.run ops c_loader m id).classifier_list id).classifier_list
        = put (insertNull (erase m id) id) id (some t2) := by
    rw [hm2, hm1, overwrite_overwrite]
  refine ⟨ho1, ho2, ?_, ?_, ?_, ?_⟩
  · rw [hfinal]
    exact find_overwrite_self m id _
  · rw [hfinal, keys_put, count_keys_insertNull, count_keys_erase]
  · rw [hfinal, keys_put, length_keys_insertNull]
    have := length_keys_erase_le m id
    omega
  · rw [hfinal, hm2alone]

/-- Witness for C4: `"A"` created as a stub and then loaded as a stub from `model.txt`, on a map
that already holds `"A"` and `"B"`. -/
theorem second_registration_replaces_first_witness :
    (Registration.run stubClassifier stubLoader
      (Registration.run stubClassifier stubLoader stubList "A"
        (.create "stub")).classifier_list "A" (.load "stub" "model.txt")) =
      ⟨[("A", some ⟨[], false⟩), ("B", some ⟨[], false⟩)],
        [.createUnmanagedInstance "stub", .load "model.txt"], .returned true ⟨true⟩⟩ ∧
    (keys (Registration.run stubClassifier stubLoader
      (Registration.run stubClassifier stubLoader stubList "A"
        (.create "stub")).classifier_list "A"
          (.load "stub" "model.txt")).classifier_list).count "A" = 1 :=
  ⟨by decide, (second_registration_replaces_first stubClassifier stubLoader stubList "A"
    (.create "stub") (.load "stub" "model.txt") ⟨[], false⟩ ⟨[], false⟩ rfl rfl).2.2.2.1⟩

/-- C6: for a class type that resolves to a fresh instance `s0`, `loadCallback` is all or
nothing: when `load(filename)` on the fresh instance fails, it returns `false` with
`success = false` and the map is unchanged, a previous entry under `id` included; when the load
succeeds, it returns `true` with `success = true` and `id` holds the loaded instance. -/
theorem load_all_or_nothing (ops : Classifier σ π) (c_loader : String → Option σ)
    (m : ClassifierList σ) (id class_type filename : String) (s0 : σ)
    (h : c_loader class_type = some s0) :
    ((ops.load filename s0).1 = false →
      loadCallback ops c_loader m id class_type filename =
        ⟨m, [.createUnmanagedInstance class_type, .load filename], .returned false ⟨false⟩⟩) ∧
    ((ops.load filename s0).1 = true →
      (loadCallback ops c_loader m id class_type filename).outcome = .returned true ⟨true⟩ ∧
      find (loadCallback ops c_loader m id class_type filename).classifier_list id
        = some (some (ops.load filename s0).2)) := by
  constructor
  · intro hfail
    simp [loadCallback, createHelper, h, hfail]
  · intro hok
    have hoff : (Registration.load class_type filename).offers ops c_loader
        = some (ops.load filename s0).2 := by
      simp [Registration.offers, h, hok]
    obtain ⟨ho, hm⟩ := Registration.run_of_offers ops c_loader m id _ _ hoff
    simp only [Registration.run] at ho hm
    refine ⟨ho, ?_⟩
    rw [hm]
    exact find_overwrite_self m id _

/-- Witness for C6: a load that fails (empty filename) over an existing entry `"A"`, and a load
that succeeds. -/
theorem load_all_or_nothing_witness :
    loadCallback stubClassifier stubLoader stubList "A" "stub" "" =
      ⟨stubList, [.createUnmanagedInstance "stub", .load ""], .returned false ⟨false⟩⟩ ∧
    ((loadCallback stubClassifier stubLoader stubList "A" "stub" "model.txt").outcome
        = .returned true ⟨true⟩ ∧
      find (loadCallback stubClassifier stubLoader stubList "A" "stub" "model.txt").classifier_list
        "A" = some (some (stubClassifier.load "model.txt" ⟨[], false⟩).2)) :=
  ⟨(load_all_or_nothing stubClassifier stubLoader stubList "A" "stub" "" ⟨[], false⟩ rfl).1
      (by decide),
    (load_all_or_nothing stubClassifier stubLoader stubList "A" "stub" "model.txt" ⟨[], false⟩
      rfl).2 (by decide)⟩

/-- C2, evaluated: `classifyCallback` for the identifier `"missing"`, which is not a key, with the
one point `[0, 0]`: the subscript inserts `"missing"` with a null pointer and `classifyPoint` is
called through it.  No failure response is produced and the key set has grown. -/
theorem classify_unknown_identifier_faults :
    classifyCallback stubClassifier stubList "missing" [⟨"", [0, 0]⟩] =
      ⟨[("A", some ⟨[("1", [0, 0])], true⟩), ("B", some ⟨[], false⟩), ("missing", none)], [],
        .nullDeref⟩ ∧
    keys (classifyCallback stubClassifier stubList "missing" [⟨"", [0, 0]⟩]).classifier_list
      ≠ keys stubList ∧
    classifyCallback stubClassifier stubList "missing" [] =
      ⟨stubList, [], .returned true ⟨[]⟩⟩ := by
  decide

/-- C3, evaluated: the class type `"nope"` does not resolve.  `createCallback` still returns
`true` with `success = true` and stores a null pointer under `"C"`; `loadCallback` calls `load`
through the null pointer and produces no response. -/
theorem unresolved_class_type_is_registered :
    stubLoader "nope" = none ∧
    (createCallback stubLoader stubList "C" "nope" : Run StubState (List Int) SuccessResponse) =
      ⟨[("A", some ⟨[("1", [0, 0])], true⟩), ("B", some ⟨[], false⟩), ("C", none)],
        [.createUnmanagedInstance "nope"], .returned true ⟨true⟩⟩ ∧
    (createCallback stubLoader stubList "A" "nope" : Run StubState (List Int) SuccessResponse) =
      ⟨[("A", none), ("B", some ⟨[], false⟩)],
        [.createUnmanagedInstance "nope"], .returned true ⟨true⟩⟩ ∧
    loadCallback stubClassifier stubLoader stubList "C" "nope" "model.txt" =
      ⟨stubList, [.createUnmanagedInstance "nope"], .nullDeref⟩ := by
  decide

/-- C7, evaluated: the instance under `"A"` fails to write (the stub rejects the empty filename),
and `saveCallback` returns `true` with `success = true` all the same. -/
theorem failed_save_reports_success :
    (stubClassifier.save "" ⟨[("1", [0, 0])], true⟩).1 = false ∧
    saveCallback stubClassifier stubList "A" "" =
      ⟨stubList, [.save "A" ""], .returned true ⟨true⟩⟩ := by
  decide

/-- A callback that returns leaves every other identifier as it was: for `other ≠ id`, whenever
one of the seven callbacks run for `id` leaves a map behind, looking `other` up in it gives what
it gave before the call. -/
theorem returned_runs_keep_other_identifiers (ops : Classifier σ π)
    (c_loader : String → Option σ) (m : ClassifierList σ)
    (id other class_type filename : String) (data : List (ClassDataPoint π)) (h : other ≠ id) :
    (∀ after, (createCallback c_loader m id class_type : Run σ π SuccessResponse).after
      = some after → find after other = find m other) ∧
    (∀ after, (addCallback ops m id data).after = some after →
      find after other = find m other) ∧
    (∀ after, (trainCallback ops m id).after = some after → find after other = find m other) ∧
    (∀ after, (clearCallback ops m id).after = some after → find after other = find m other) ∧
    (∀ after, (saveCallback ops m id filename).after = some after →
      find after other = find m other) ∧
    (∀ after, (loadCallback ops c_loader m id class_type filename).after = some after →
      find after other = find m other) ∧
    (∀ after, (classifyCallback ops m id data).after = some after →
      find after other = find m other) := by
  obtain ⟨h1, h2, h3, h4, h5, h6, h7⟩ :=
    other_identifiers_untouched ops c_loader m id other class_type filename data h
  refine ⟨?_, ?_, ?_, ?_, ?_, ?_, ?_⟩ <;> intro after ha
  · rw [Run.after_eq_some _ _ ha]; exact h1
  · rw [Run.after_eq_some _ _ ha]; exact h2
  · rw [Run.after_eq_some _ _ ha]; exact h3
  · rw [Run.after_eq_some _ _ ha]; exact h4
  · rw [Run.after_eq_some _ _ ha]; exact h5
  · rw [Run.after_eq_some _ _ ha]; exact h6
  · rw [Run.after_eq_some _ _ ha]; exact h7

/-- C5, evaluated: `create_classifier("C", "nope")` on a class type that does not resolve is
answered with `success = true` and leaves `"C"` a key of the map, holding a null pointer (the
`return true` of `createHelper`, as in C3).  `classifyCallback` for the key `"C"` with one point
then calls `classifyPoint` through the null pointer: no label sequence is returned. -/
theorem classify_on_registered_null_faults :
    (createCallback stubLoader stubList "C" "nope" :
      Run StubState (List Int) SuccessResponse).outcome = .returned true ⟨true⟩ ∧
    "C" ∈ keys stubListAfterBadCreate ∧
    classifyCallback stubClassifier stubListAfterBadCreate "C" [⟨"", [0, 0]⟩] =
      ⟨[("A", some ⟨[("1", [0, 0])], true⟩), ("B", some ⟨[], false⟩), ("C", none)], [],
        .nullDeref⟩ ∧
    (classifyCallback stubClassifier stubListAfterBadCreate "C" [⟨"", [0, 0]⟩]).after = none := by
  decide

/-- C8, evaluated: after `create_classifier("C", "nope")`, answered with `success = true`, `"C"`
is a key holding a null pointer (the `return true` of `createHelper`, as in C3).  `addCallback`
for `"C"` with one training point passes its own `find` test and calls `addTrainingPoint` through
the null pointer: `success = true` is not reported and no training point is added. -/
theorem add_on_registered_null_faults :
    (createCallback stubLoader stubList "C" "nope" :
      Run StubState (List Int) SuccessResponse).outcome = .returned true ⟨true⟩ ∧
    "C" ∈ keys stubListAfterBadCreate ∧
    addCallback stubClassifier stubListAfterBadCreate "C" [⟨"1", [0, 0]⟩] =
      ⟨[("A", some ⟨[("1", [0, 0])], true⟩), ("B", some ⟨[], false⟩), ("C", none)], [],
        .nullDeref⟩ ∧
    (addCallback stubClassifier stubListAfterBadCreate "C" [⟨"1", [0, 0]⟩]).after = none := by
  decide

/-- C10, evaluated: `"B"` holds an instance, and two requests naming other identifiers end in a
call through a null pointer, after which the server holds no map and so no entry for `"B"`:
`classify_data` for `"missing"`, which is not a key (the missing `find` test of
`classifyCallback`, as in C2), and `load_classifier` for `"A"` with a class type that does not
resolve (the `return true` of `createHelper`, as in C3). -/
theorem fault_loses_other_identifiers :
    find stubList "B" = some (some ⟨[], false⟩) ∧
    (classifyCallback stubClassifier stubList "missing" [⟨"", [0, 0]⟩]).outcome = .nullDeref ∧
    (classifyCallback stubClassifier stubList "missing" [⟨"", [0, 0]⟩]).after = none ∧
    (loadCallback stubClassifier stubLoader stubList "A" "nope" "model.txt").outcome
      = .nullDeref ∧
    (loadCallback stubClassifier stubLoader stubList "A" "nope" "model.txt").after = none := by
  decide

end Claims

end MlClassifiers
